import Mathlib

/-!
Verification of the persistent configuration validation and integrity
subsystem of the EARS firmware (NVSEeprom wrapper, CRC32 integrity layer,
hash-based credential check, validation orchestrator, and the dual-core
handoff of the validation verdict).

Pure functions from `src/lib/NVSEeprom/NVSEeprom.cpp` are embedded directly
as Lean functions on `Nat` (machine `uint32_t` arithmetic is carried out
modulo `2 ^ 32` explicitly).  Stateful and effectful code from
`src/src/main.cpp` is embedded as explicit state passing and as a small-step
relation between the two FreeRTOS tasks.  Components whose implementation is
declared but not present in the sources (the `validateNVS` orchestrator and
its result types) are modelled from the specification, as marked in their
doc comments.
-/

namespace EARS

/-! ## CRC32 (NVSEeprom::calculateCRC32, NVSEeprom.cpp lines 89-100)

The C++ routine operates on `uint32_t`; we model the register as a `Nat`
kept below `2 ^ 32`.  `- (crc & 1)` in C is unsigned negation modulo
`2 ^ 32`, i.e. `0` when the low bit is clear and `0xFFFFFFFF` when set. -/

/-- Unsigned 32-bit negation: `(-x) mod 2^32` for `x < 2^32`. -/
def neg32 (x : Nat) : Nat := (4294967296 - x) % 4294967296

/-- One shift/XOR round of the CRC32 loop:
`crc = (crc >> 1) ^ (0xEDB88320 & -(crc & 1))`. -/
def crc32Round (crc : Nat) : Nat :=
  (crc >>> 1) ^^^ (0xEDB88320 &&& neg32 (crc &&& 1))

/-- Per-byte step of `calculateCRC32`: XOR the byte into the register, then
run eight shift/XOR rounds. -/
def crc32Byte (crc b : Nat) : Nat :=
  crc32Round (crc32Round (crc32Round (crc32Round
    (crc32Round (crc32Round (crc32Round (crc32Round (crc ^^^ b))))))))

/-- `NVSEeprom::calculateCRC32`: initial register `0xFFFFFFFF`, fold the
per-byte step over the data, finalize by bitwise complement (on `uint32_t`,
`~crc = crc XOR 0xFFFFFFFF`). -/
def calculateCRC32 (data : List Nat) : Nat :=
  (data.foldl crc32Byte 0xFFFFFFFF) ^^^ 0xFFFFFFFF

/-! Spec-side restatement of the round (§4.3 of the specification): "if low
bit set, shift right and XOR polynomial, else shift right".  Used only to
compare the source algorithm against the specification's wording. -/

/-- The CRC32 round as worded by the specification. -/
def crc32RoundSpec (crc : Nat) : Nat :=
  if crc % 2 = 1 then (crc >>> 1) ^^^ 0xEDB88320 else crc >>> 1

/-- Per-byte step of the specification's CRC32. -/
def crc32ByteSpec (crc b : Nat) : Nat :=
  crc32RoundSpec (crc32RoundSpec (crc32RoundSpec (crc32RoundSpec
    (crc32RoundSpec (crc32RoundSpec (crc32RoundSpec (crc32RoundSpec (crc ^^^ b))))))))

/-- The specification's CRC32 (§4.3). -/
def calculateCRC32Spec (data : List Nat) : Nat :=
  (data.foldl crc32ByteSpec 0xFFFFFFFF) ^^^ 0xFFFFFFFF

/-- The byte sequence of the ASCII string `"123456789"`. -/
def bytes123456789 : List Nat := [49, 50, 51, 52, 53, 54, 55, 56, 57]

lemma crc32Round_eq_spec (crc : Nat) : crc32Round crc = crc32RoundSpec crc := by
  unfold crc32Round crc32RoundSpec
  rw [Nat.and_one_is_mod]
  rcases Nat.mod_two_eq_zero_or_one crc with h | h <;> rw [h]
  · simp [neg32]
  · norm_num [neg32]
    decide

lemma crc32Byte_eq_spec (crc b : Nat) : crc32Byte crc b = crc32ByteSpec crc b := by
  unfold crc32Byte crc32ByteSpec
  simp only [crc32Round_eq_spec]

set_option maxRecDepth 40000

/-- C2: `calculateCRC32` implements the CRC32 of the specification
(reflected polynomial `0xEDB88320`, initial register `0xFFFFFFFF`, per-byte
XOR into the low byte followed by eight conditional shift/XOR rounds, final
bitwise complement); on the nine ASCII bytes of `"123456789"` it returns
`0xCBF43926`, and on the empty byte sequence it returns `0`. -/
theorem calculateCRC32_correct :
    (∀ data : List Nat, calculateCRC32 data = calculateCRC32Spec data) ∧
    calculateCRC32 bytes123456789 = 0xCBF43926 ∧
    calculateCRC32 [] = 0x00000000 := by
  refine ⟨fun data => ?_, by decide, by decide⟩
  unfold calculateCRC32 calculateCRC32Spec
  simp only [funext (fun crc => funext (crc32Byte_eq_spec crc))]

/-! ## Credential hashing (NVSEeprom::makeHash / compareHash, NVSEeprom.cpp
lines 108-129)

`makeHash` formats the CRC32 of the input bytes with `sprintf("%08X", crc)`:
eight uppercase hexadecimal characters, most significant digit first,
zero-padded.  `compareHash` recomputes the hash and performs an exact string
comparison (`String::equals`).  The C++ `String` argument is a byte string;
we model the hashed data as its byte sequence (`List Nat`, entries below
256). -/

/-- One uppercase hexadecimal digit, as printed by `%X`. -/
def hexDigitChar (n : Nat) : Char :=
  if n < 10 then Char.ofNat (48 + n) else Char.ofNat (55 + n)

/-- The `k` low hexadecimal digits of `n`, most significant first
(zero-padded), as printed by `%08X` when `k = 8`. -/
def hexChars : Nat → Nat → List Char
  | 0, _ => []
  | k + 1, n => hexChars k (n / 16) ++ [hexDigitChar (n % 16)]

/-- `NVSEeprom::makeHash`: the CRC32 of the data, formatted `%08X`. -/
def makeHash (data : List Nat) : String :=
  String.mk (hexChars 8 (calculateCRC32 data))

/-- `NVSEeprom::compareHash`: recompute the hash of `data` and compare it
to `storedHash` by exact string equality. -/
def compareHash (data : List Nat) (storedHash : String) : Bool :=
  makeHash data == storedHash

/-- The entries of `l` are byte values (the C++ data is an array of
`uint8_t`). -/
def isBytes (l : List Nat) : Prop := ∀ b ∈ l, b < 256

instance (l : List Nat) : Decidable (isBytes l) := by
  unfold isBytes; infer_instance

lemma crc32Round_lt {crc : Nat} (h : crc < 2 ^ 32) : crc32Round crc < 2 ^ 32 := by
  unfold crc32Round
  refine Nat.xor_lt_two_pow ?_ (Nat.and_lt_two_pow _ ?_)
  · calc crc >>> 1 ≤ crc := by
          rw [Nat.shiftRight_eq_div_pow]; exact Nat.div_le_self _ _
      _ < 2 ^ 32 := h
  · have : neg32 (crc &&& 1) < 4294967296 := Nat.mod_lt _ (by norm_num)
    simpa using this

lemma crc32Byte_lt {crc b : Nat} (hc : crc < 2 ^ 32) (hb : b < 256) :
    crc32Byte crc b < 2 ^ 32 := by
  have h0 : crc ^^^ b < 2 ^ 32 :=
    Nat.xor_lt_two_pow hc (lt_trans hb (by norm_num))
  unfold crc32Byte
  exact crc32Round_lt (crc32Round_lt (crc32Round_lt (crc32Round_lt
    (crc32Round_lt (crc32Round_lt (crc32Round_lt (crc32Round_lt h0)))))))

lemma crc32_foldl_lt {data : List Nat} (h : isBytes data) :
    ∀ {crc : Nat}, crc < 2 ^ 32 → data.foldl crc32Byte crc < 2 ^ 32 := by
  induction data with
  | nil => intro crc hc; simpa using hc
  | cons b rest ih =>
    intro crc hc
    have hb : b < 256 := h b (List.mem_cons_self _ _)
    have hrest : isBytes rest := fun x hx => h x (List.mem_cons_of_mem _ hx)
    simpa using ih hrest (crc32Byte_lt hc hb)

lemma calculateCRC32_lt {data : List Nat} (h : isBytes data) :
    calculateCRC32 data < 2 ^ 32 := by
  unfold calculateCRC32
  exact Nat.xor_lt_two_pow (crc32_foldl_lt h (by norm_num)) (by norm_num)

lemma hexChars_length (k : Nat) : ∀ n, (hexChars k n).length = k := by
  induction k with
  | zero => intro n; rfl
  | succ k ih => intro n; simp [hexChars, ih]

lemma hexDigitChar_inj :
    ∀ m ∈ Finset.range 16, ∀ m' ∈ Finset.range 16,
      hexDigitChar m = hexDigitChar m' → m = m' := by decide

lemma hexChars_inj (k : Nat) :
    ∀ a b, a < 16 ^ k → b < 16 ^ k → hexChars k a = hexChars k b → a = b := by
  induction k with
  | zero =>
    intro a b ha hb _
    omega
  | succ k ih =>
    intro a b ha hb heq
    unfold hexChars at heq
    have hlen : (hexChars k (a / 16)).length = (hexChars k (b / 16)).length := by
      rw [hexChars_length, hexChars_length]
    obtain ⟨hpre, hdig⟩ := List.append_inj heq hlen
    have hmod : a % 16 = b % 16 := by
      have h1 : hexDigitChar (a % 16) = hexDigitChar (b % 16) := by
        simpa using hdig
      exact hexDigitChar_inj _ (Finset.mem_range.mpr (Nat.mod_lt _ (by norm_num))) _
        (Finset.mem_range.mpr (Nat.mod_lt _ (by norm_num))) h1
    have hdiva : a / 16 < 16 ^ k := by
      rw [Nat.div_lt_iff_lt_mul (by norm_num)]
      calc a < 16 ^ (k + 1) := ha
        _ = 16 ^ k * 16 := by rw [pow_succ]
    have hdivb : b / 16 < 16 ^ k := by
      rw [Nat.div_lt_iff_lt_mul (by norm_num)]
      calc b < 16 ^ (k + 1) := hb
        _ = 16 ^ k * 16 := by rw [pow_succ]
    have hdiv : a / 16 = b / 16 := ih _ _ hdiva hdivb hpre
    have ha' := Nat.div_add_mod a 16
    have hb' := Nat.div_add_mod b 16
    omega

lemma makeHash_inj {x y : List Nat} (hx : isBytes x) (hy : isBytes y)
    (h : makeHash x = makeHash y) : calculateCRC32 x = calculateCRC32 y := by
  unfold makeHash at h
  injection h with h
  have h32 : (16 : Nat) ^ 8 = 2 ^ 32 := by norm_num
  exact hexChars_inj 8 _ _ (h32 ▸ calculateCRC32_lt hx) (h32 ▸ calculateCRC32_lt hy) h

/-- The 4-byte sequence that collides with the bytes of `"hello"` under
CRC32 (both have checksum `0x3610A686`). -/
def collidingBytes : List Nat := [130, 106, 7, 254]

/-- The byte sequence of the ASCII string `"hello"`. -/
def bytesHello : List Nat := [104, 101, 108, 108, 111]

/-- C3 (counterexample): `compareHash(x, makeHash(y)) = false` does not hold
for every pair `x ≠ y`: the distinct byte sequences `[130, 106, 7, 254]` and
`"hello"` have the same CRC32 (`0x3610A686`), so the comparison succeeds. -/
theorem compareHash_collision :
    collidingBytes ≠ bytesHello ∧
    compareHash collidingBytes (makeHash bytesHello) = true := by
  constructor
  · decide
  · decide

/-- C3 (amended): `makeHash` is a deterministic function producing an
8-character string (the CRC32 of the input bytes, in hex), and
`compareHash(data, storedHash)` is exact string equality of
`makeHash(data)` with `storedHash`; `compareHash(x, makeHash(x)) = true`
for every `x`, but for `x ≠ y`, `compareHash(x, makeHash(y))` is `true`
exactly when `calculateCRC32 x = calculateCRC32 y` — CRC32 collisions exist,
so it is not `false` for every distinct pair. -/
theorem makeHash_compareHash_characterization :
    (∀ data : List Nat, (makeHash data).length = 8) ∧
    (∀ data : List Nat, compareHash data (makeHash data) = true) ∧
    (∀ x y : List Nat, isBytes x → isBytes y →
      (compareHash x (makeHash y) = true ↔
        calculateCRC32 x = calculateCRC32 y)) := by
  refine ⟨fun data => ?_, fun data => ?_, fun x y hx hy => ?_⟩
  · show (hexChars 8 (calculateCRC32 data)).length = 8
    exact hexChars_length 8 _
  · simp [compareHash]
  · unfold compareHash
    rw [beq_iff_eq]
    constructor
    · exact makeHash_inj hx hy
    · intro h; unfold makeHash; rw [h]

/-- Witness for C3 (amended) at concrete byte sequences. -/
theorem makeHash_compareHash_characterization_witness :
    isBytes [49] ∧ isBytes [50] ∧
    (compareHash [49] (makeHash [50]) = true ↔
      calculateCRC32 [49] = calculateCRC32 [50]) :=
  ⟨by decide, by decide,
    makeHash_compareHash_characterization.2.2 [49] [50] (by decide) (by decide)⟩

/-! ## KeyValueStore wrapper (NVSEeprom::getHash / putHash, NVSEeprom.cpp
lines 50-80)

The wrapper opens the fixed namespace `"EARS"` on the vendor `Preferences`
store.  We model the namespace contents as an association list of
key/value strings; `Preferences::begin(NAMESPACE, true)` (read-only open)
succeeds exactly when the namespace exists, modelled by `Option`:
`none` means the read-only open fails and `getHash` falls back to the
default.  The vendor `getString(key, default)` returns the stored value
when the key is present and the default otherwise. -/

/-- The contents of one NVS namespace: key/value string pairs. -/
abbrev NvsNamespace := List (String × String)

/-- `NVSEeprom::getHash`: open the namespace read-only (returning
`defaultValue` when the open fails), then `getString(key, defaultValue)`. -/
def getHash (store : Option NvsNamespace) (key : String)
    (defaultValue : String) : String :=
  match store with
  | none => defaultValue
  | some entries => (entries.lookup key).getD defaultValue

/-- C7: `getHash` (the `getString` wrapper) never fails: it totally returns
a string — the stored value when the key is present in the namespace, and
the supplied default when the key is absent (including when the read-only
open of the namespace fails because the namespace does not exist). -/
theorem getHash_total :
    (∀ (ns : NvsNamespace) (key d v : String),
      ns.lookup key = some v → getHash (some ns) key d = v) ∧
    (∀ (ns : NvsNamespace) (key d : String),
      ns.lookup key = none → getHash (some ns) key d = d) ∧
    (∀ key d : String, getHash none key d = d) := by
  refine ⟨fun ns key d v h => ?_, fun ns key d h => ?_, fun key d => rfl⟩
  · simp [getHash, h]
  · simp [getHash, h]

/-- Witness for C7 at a concrete namespace. -/
theorem getHash_total_witness :
    [("PWHASH", "3610A686")].lookup "PWHASH" = some "3610A686" ∧
    getHash (some [("PWHASH", "3610A686")]) "PWHASH" "" = "3610A686" ∧
    [("PWHASH", "3610A686")].lookup "ZAP" = none ∧
    getHash (some [("PWHASH", "3610A686")]) "ZAP" "dflt" = "dflt" :=
  ⟨by decide, getHash_total.1 [("PWHASH", "3610A686")] "PWHASH" "" "3610A686" (by decide),
   by decide, getHash_total.2.1 [("PWHASH", "3610A686")] "ZAP" "dflt" (by decide)⟩

/-! ### putHash (NVSEeprom.cpp lines 70-80)

`putHash` opens the namespace read-write (returning `false` on failure),
calls the vendor `Preferences::putString`, and reports success exactly when
the returned byte count is strictly positive.  The vendor `putString`
returns the number of bytes written — the length of the value on a
successful write and `0` on a failed one. -/

/-- The byte count reported by the vendor `Preferences::putString`:
the value's length when the write succeeds, `0` when it fails. -/
def putStringResult (writeOk : Bool) (value : String) : Nat :=
  if writeOk then value.length else 0

/-- `NVSEeprom::putHash`: open read-write (`false` on failure), write the
string, and return `result > 0`. -/
def putHash (rwOpenOk writeOk : Bool) (_key value : String) : Bool :=
  if rwOpenOk then decide (0 < putStringResult writeOk value) else false

/-- C10: `putHash(key, "")` returns `false` for every key (the empty string
has byte count `0`, and `putHash` defines success as a strictly positive
byte count), and in general `putHash` returns `true` iff the namespace
opens read-write and `putString` reports a nonzero byte count. -/
theorem putHash_empty_false :
    (∀ (rwOpenOk writeOk : Bool) (key : String),
      putHash rwOpenOk writeOk key "" = false) ∧
    (∀ (rwOpenOk writeOk : Bool) (key value : String),
      putHash rwOpenOk writeOk key value = true ↔
        rwOpenOk = true ∧ 0 < putStringResult writeOk value) := by
  constructor
  · intro rwOpenOk writeOk key
    cases rwOpenOk <;> cases writeOk <;> rfl
  · intro rwOpenOk writeOk key value
    cases rwOpenOk <;> simp [putHash]

/-! ## Store initialization (NVSEeprom::begin, NVSEeprom.cpp lines 34-41)

`begin` calls `nvs_flash_init()`; when the store signals
`ESP_ERR_NVS_NO_FREE_PAGES` or `ESP_ERR_NVS_NEW_VERSION_FOUND` it calls
`nvs_flash_erase()` and retries `nvs_flash_init()` once; the result is
`err == ESP_OK`.  We model the environment by the results of the two
potential `nvs_flash_init` calls and record the trace of low-level actions
performed, including (for observability) a `logRecovery` action that `begin`
would emit if it logged the recovery — the source body contains no logger
call, so this action never appears in the trace. -/

/-- The ESP-IDF error results relevant to `nvs_flash_init`. -/
inductive EspErr
  | ESP_OK
  | ESP_ERR_NVS_NO_FREE_PAGES
  | ESP_ERR_NVS_NEW_VERSION_FOUND
  | otherError
deriving DecidableEq

/-- Observable low-level actions of `NVSEeprom::begin`. -/
inductive NvsAction
  | initFlash
  | eraseFlash
  | logRecovery
deriving DecidableEq

/-- `NVSEeprom::begin`, modelled over the results `err1` (first
`nvs_flash_init`) and `err2` (the retry after an erase): returns the boolean
result together with the trace of low-level actions performed. -/
def nvsBegin (err1 err2 : EspErr) : Bool × List NvsAction :=
  if err1 = EspErr.ESP_ERR_NVS_NO_FREE_PAGES ∨
     err1 = EspErr.ESP_ERR_NVS_NEW_VERSION_FOUND then
    (decide (err2 = EspErr.ESP_OK),
     [NvsAction.initFlash, NvsAction.eraseFlash, NvsAction.initFlash])
  else
    (decide (err1 = EspErr.ESP_OK), [NvsAction.initFlash])

/-- C8 (counterexample): when the first `nvs_flash_init` reports
`ESP_ERR_NVS_NEW_VERSION_FOUND`, `begin` performs the erase-and-reinitialize
recovery but emits no logger call at all — the recovery is not "logged by
the external logger" as the claim states. -/
theorem nvsBegin_recovery_not_logged :
    (nvsBegin EspErr.ESP_ERR_NVS_NEW_VERSION_FOUND EspErr.ESP_OK).2 =
      [NvsAction.initFlash, NvsAction.eraseFlash, NvsAction.initFlash] ∧
    NvsAction.logRecovery ∉
      (nvsBegin EspErr.ESP_ERR_NVS_NEW_VERSION_FOUND EspErr.ESP_OK).2 := by
  constructor
  · rfl
  · decide

/-- C8 (amended): when the store's initialization signals
`ESP_ERR_NVS_NEW_VERSION_FOUND` or `ESP_ERR_NVS_NO_FREE_PAGES`, `begin`
performs exactly one low-level erase of the backing partition and exactly
one reinitialization, and returns `true` iff the retried initialization
succeeds; the recovery is transparent to callers, and `begin` itself emits
no log record of it. -/
theorem nvsBegin_recovery :
    ∀ err1 err2 : EspErr,
      (err1 = EspErr.ESP_ERR_NVS_NO_FREE_PAGES ∨
       err1 = EspErr.ESP_ERR_NVS_NEW_VERSION_FOUND) →
      (nvsBegin err1 err2).2.count NvsAction.eraseFlash = 1 ∧
      (nvsBegin err1 err2).2.count NvsAction.initFlash = 2 ∧
      ((nvsBegin err1 err2).1 = true ↔ err2 = EspErr.ESP_OK) ∧
      NvsAction.logRecovery ∉ (nvsBegin err1 err2).2 := by
  intro err1 err2 h
  unfold nvsBegin
  rw [if_pos h]
  refine ⟨rfl, rfl, by simp, by simp⟩

/-- Witness for C8 (amended) at a concrete error environment. -/
theorem nvsBegin_recovery_witness :
    (EspErr.ESP_ERR_NVS_NO_FREE_PAGES = EspErr.ESP_ERR_NVS_NO_FREE_PAGES ∨
     EspErr.ESP_ERR_NVS_NO_FREE_PAGES = EspErr.ESP_ERR_NVS_NEW_VERSION_FOUND) ∧
    ((nvsBegin EspErr.ESP_ERR_NVS_NO_FREE_PAGES EspErr.ESP_OK).2.count
        NvsAction.eraseFlash = 1 ∧
      (nvsBegin EspErr.ESP_ERR_NVS_NO_FREE_PAGES EspErr.ESP_OK).2.count
        NvsAction.initFlash = 2 ∧
      ((nvsBegin EspErr.ESP_ERR_NVS_NO_FREE_PAGES EspErr.ESP_OK).1 = true ↔
        EspErr.ESP_OK = EspErr.ESP_OK) ∧
      NvsAction.logRecovery ∉
        (nvsBegin EspErr.ESP_ERR_NVS_NO_FREE_PAGES EspErr.ESP_OK).2) :=
  ⟨Or.inl rfl,
   nvsBegin_recovery EspErr.ESP_ERR_NVS_NO_FREE_PAGES EspErr.ESP_OK (Or.inl rfl)⟩

/-! ## Validation result types

The enum `NVSStatus` and the struct `NVSValidationResult` are declared in a
library header that is not among the available sources; only their callers
(`src/src/main.cpp`, `NVSEeprom_Example.cpp`) are present.  Their shape is
fixed by those callers and by §3/§4.5 of the specification. -/

/-- Modelled from the spec: the `status` enum of §4.5 (its values and the
`NOT_CHECKED` initial state match every `switch` in `src/src/main.cpp`);
the defining header is not among the sources. -/
inductive NVSStatus
  | NOT_CHECKED
  | VALID
  | UPGRADED
  | MISSING_ZAPNUMBER
  | MISSING_PASSWORD
  | CRC_FAILED
  | INVALID_VERSION
  | INITIALIZATION_FAILED
deriving DecidableEq

/-- Modelled from the spec: the `ValidationResult` value of §3 (fields match
the reads in `src/src/main.cpp` lines 239-249); the defining header is not
among the sources. -/
structure NVSValidationResult where
  status : NVSStatus
  currentVersion : Nat
  expectedVersion : Nat
  zapNumber : String
  zapNumberValid : Bool
  passwordHashValid : Bool
  crcValid : Bool
  calculatedCRC : Nat
  wasUpgraded : Bool
deriving DecidableEq

/-- The zero/default-initialized `NVSValidationResult` (the state of the
global `g_nvsResult` before validation: `status = NOT_CHECKED`, all other
fields zero/empty/false). -/
def defaultResult : NVSValidationResult :=
  ⟨NVSStatus.NOT_CHECKED, 0, 0, "", false, false, false, 0, false⟩

/-! ## Consumer decision logic (core0_loaderLogic, main.cpp lines 268-322) -/

/-- The remediation branches selected by `core0_loaderLogic`. -/
inductive LoaderDecision
  | loginScreen
  | zapNumberSetupWizard
  | passwordSetupWizard
  | securityAlertFactoryReset
  | versionMismatch
  | hardwareError
  | unknownState
deriving DecidableEq

/-- The decision `switch` of `core0_loaderLogic` (main.cpp lines 272-320):
which remediation branch each published status selects. -/
def loaderDecision : NVSStatus → LoaderDecision
  | NVSStatus.VALID => LoaderDecision.loginScreen
  | NVSStatus.UPGRADED => LoaderDecision.loginScreen
  | NVSStatus.MISSING_ZAPNUMBER => LoaderDecision.zapNumberSetupWizard
  | NVSStatus.MISSING_PASSWORD => LoaderDecision.passwordSetupWizard
  | NVSStatus.CRC_FAILED => LoaderDecision.securityAlertFactoryReset
  | NVSStatus.INVALID_VERSION => LoaderDecision.versionMismatch
  | NVSStatus.INITIALIZATION_FAILED => LoaderDecision.hardwareError
  | NVSStatus.NOT_CHECKED => LoaderDecision.unknownState

/-- C9: the consumer's decision function maps each published status to
exactly the corresponding remediation branch: `VALID` and `UPGRADED` to the
login screen, `MISSING_ZAPNUMBER` to the ZapNumber setup wizard,
`MISSING_PASSWORD` to the password setup wizard, `CRC_FAILED` to the
security-alert/factory-reset branch, `INVALID_VERSION` to the
version-mismatch branch, and `INITIALIZATION_FAILED` to the hardware-error
branch. -/
theorem loaderDecision_correct :
    loaderDecision NVSStatus.VALID = LoaderDecision.loginScreen ∧
    loaderDecision NVSStatus.UPGRADED = LoaderDecision.loginScreen ∧
    loaderDecision NVSStatus.MISSING_ZAPNUMBER =
      LoaderDecision.zapNumberSetupWizard ∧
    loaderDecision NVSStatus.MISSING_PASSWORD =
      LoaderDecision.passwordSetupWizard ∧
    loaderDecision NVSStatus.CRC_FAILED =
      LoaderDecision.securityAlertFactoryReset ∧
    loaderDecision NVSStatus.INVALID_VERSION = LoaderDecision.versionMismatch ∧
    loaderDecision NVSStatus.INITIALIZATION_FAILED =
      LoaderDecision.hardwareError :=
  ⟨rfl, rfl, rfl, rfl, rfl, rfl, rfl⟩

/-! ## Cross-core handoff (main.cpp lines 96-99, 175-261, 331-360)

The producer task `Core0_NVSValidation` fills the shared global
`g_nvsResult` (a non-atomic struct assignment, modelled as one atomic write
per field) and only then sets the `volatile bool validationComplete` flag —
a single boolean write, which is the publish point.  The consumer task
`Core1_DisplayHandler` polls the flag and reads `g_nvsResult` only after
observing the flag set.  The two tasks are modelled as a small-step
interleaving (sequentially consistent shared memory): at each step either
the producer performs its next write or the consumer polls. -/

/-- A single atomic field write to the shared `g_nvsResult`. -/
abbrev ResultWrite := NVSValidationResult → NVSValidationResult

/-- The per-field writes of the struct assignment
`g_nvsResult = using_nvseeprom().validateNVS()` (main.cpp line 198), one
atomic write per field. -/
def fieldWrites (res : NVSValidationResult) : List ResultWrite :=
  [fun g => { g with status := res.status },
   fun g => { g with currentVersion := res.currentVersion },
   fun g => { g with expectedVersion := res.expectedVersion },
   fun g => { g with zapNumber := res.zapNumber },
   fun g => { g with zapNumberValid := res.zapNumberValid },
   fun g => { g with passwordHashValid := res.passwordHashValid },
   fun g => { g with crcValid := res.crcValid },
   fun g => { g with calculatedCRC := res.calculatedCRC },
   fun g => { g with wasUpgraded := res.wasUpgraded }]

/-- The shared-memory state of the two tasks: the shared struct, the
`validationComplete` flag, the producer's remaining writes, and what (if
anything) the consumer has observed. -/
structure HandoffState where
  shared : NVSValidationResult
  validationComplete : Bool
  pending : List ResultWrite
  observed : Option NVSValidationResult

/-- Initial state: `g_nvsResult` default-initialized, flag clear, the
producer yet to perform all of its writes, the consumer yet to observe. -/
def initHandoff (res : NVSValidationResult) : HandoffState :=
  ⟨defaultResult, false, fieldWrites res, none⟩

/-- One interleaving step: the producer performs its next field write; the
producer, having finished all field writes, sets `validationComplete`; or
the consumer, seeing `validationComplete` set, reads the shared struct. -/
inductive HandoffStep : HandoffState → HandoffState → Prop
  | producerWrite (g : NVSValidationResult) (c : Bool) (w : ResultWrite)
      (ws : List ResultWrite) (o : Option NVSValidationResult) :
      HandoffStep ⟨g, c, w :: ws, o⟩ ⟨w g, c, ws, o⟩
  | producerPublish (g : NVSValidationResult) (o : Option NVSValidationResult) :
      HandoffStep ⟨g, false, [], o⟩ ⟨g, true, [], o⟩
  | consumerObserve (g : NVSValidationResult) (ws : List ResultWrite) :
      HandoffStep ⟨g, true, ws, none⟩ ⟨g, true, ws, some g⟩

/-- Reachability from the initial state under the interleaving. -/
def HandoffReachable (res : NVSValidationResult) (s : HandoffState) : Prop :=
  Relation.ReflTransGen HandoffStep (initHandoff res) s

lemma fieldWrites_foldl (res : NVSValidationResult) (g : NVSValidationResult) :
    (fieldWrites res).foldl (fun g w => w g) g = res := rfl

/-- Invariant: applying the remaining writes yields the final result, the
flag is only set once all writes are done, and every observation is the
final result. -/
def HandoffInv (res : NVSValidationResult) (s : HandoffState) : Prop :=
  s.pending.foldl (fun g w => w g) s.shared = res ∧
  (s.validationComplete = true → s.pending = []) ∧
  (∀ r, s.observed = some r → r = res)

lemma handoffInv_init (res : NVSValidationResult) :
    HandoffInv res (initHandoff res) := by
  refine ⟨fieldWrites_foldl res defaultResult, ?_, ?_⟩
  · intro h
    simp [initHandoff] at h
  · intro r hr
    simp [initHandoff] at hr

lemma handoffInv_step {res : NVSValidationResult} {s s' : HandoffState}
    (hs : HandoffInv res s) (hstep : HandoffStep s s') : HandoffInv res s' := by
  obtain ⟨h1, h2, h3⟩ := hs
  cases hstep with
  | producerWrite g c w ws o =>
    refine ⟨by simpa using h1, fun hc => ?_, h3⟩
    exact absurd (h2 hc) (by simp)
  | producerPublish g o =>
    exact ⟨h1, fun _ => rfl, h3⟩
  | consumerObserve g ws =>
    have hws : ws = [] := h2 rfl
    subst hws
    have hg : g = res := by simpa using h1
    refine ⟨h1, h2, ?_⟩
    intro r hr
    simp only [Option.some.injEq] at hr
    rw [← hr, hg]

lemma handoffInv_reachable {res : NVSValidationResult} {s : HandoffState}
    (h : HandoffReachable res s) : HandoffInv res s := by
  induction h with
  | refl => exact handoffInv_init res
  | tail _ hstep ih => exact handoffInv_step ih hstep

/-- C4: the handoff of the `ValidationResult` is observably atomic: in every
reachable interleaving of the producer's field writes, its flag publish, and
the consumer's flag-gated read, any result the consumer observes is exactly
the producer's fully-populated final result — never a partially written
one (in particular, never `status ≠ NOT_CHECKED` with other fields still at
defaults inconsistent with that status). -/
theorem handoff_no_partial_observation :
    ∀ (res : NVSValidationResult) (s : HandoffState),
      HandoffReachable res s → ∀ r, s.observed = some r → r = res := by
  intro res s h r hr
  exact (handoffInv_reachable h).2.2 r hr

/-- A concrete fully-populated result, used to exercise the handoff. -/
def sampleResult : NVSValidationResult :=
  ⟨NVSStatus.VALID, 2, 2, "AB1234", true, true, true, 0x3610A686, false⟩

lemma handoff_run_writes (ws : List ResultWrite) :
    ∀ (g : NVSValidationResult) (c : Bool) (o : Option NVSValidationResult),
      Relation.ReflTransGen HandoffStep ⟨g, c, ws, o⟩
        ⟨ws.foldl (fun g w => w g) g, c, [], o⟩ := by
  induction ws with
  | nil => intro g c o; exact Relation.ReflTransGen.refl
  | cons w rest ih =>
    intro g c o
    exact Relation.ReflTransGen.head (HandoffStep.producerWrite g c w rest o)
      (by simpa using ih (w g) c o)

lemma handoff_complete_run (res : NVSValidationResult) :
    HandoffReachable res ⟨res, true, [], some res⟩ := by
  have h1 : Relation.ReflTransGen HandoffStep (initHandoff res)
      ⟨res, false, [], none⟩ := by
    have := handoff_run_writes (fieldWrites res) defaultResult false none
    rwa [fieldWrites_foldl] at this
  exact (h1.tail (HandoffStep.producerPublish res none)).tail
    (HandoffStep.consumerObserve res [])

/-- Witness for C4: a complete concrete run reaching an observation, at
which the theorem yields that the observed value is the published result. -/
theorem handoff_no_partial_observation_witness :
    HandoffReachable sampleResult ⟨sampleResult, true, [], some sampleResult⟩ ∧
    (HandoffState.mk sampleResult true [] (some sampleResult)).observed =
      some sampleResult ∧
    sampleResult = sampleResult :=
  ⟨handoff_complete_run sampleResult, rfl,
   handoff_no_partial_observation sampleResult _
     (handoff_complete_run sampleResult) sampleResult rfl⟩

/-! ## The consumer's wait (Core1_DisplayHandler, main.cpp lines 331-360)

Each loop iteration services the LVGL timer, then checks
`validationComplete`; when the flag is set the loop exits into the loader
logic, otherwise it delays 5 ms and repeats.  There is no iteration bound,
no timeout computation, and no exit path other than the flag. -/

/-- Whether the consumer's wait loop is still polling or has exited into
the loader logic. -/
inductive ConsumerState
  | waiting
  | done
deriving DecidableEq

/-- One iteration of the `Core1_DisplayHandler` loop, given the value of
`validationComplete` read in that iteration. -/
def consumerStep (flagNow : Bool) : ConsumerState → ConsumerState
  | ConsumerState.done => ConsumerState.done
  | ConsumerState.waiting =>
      if flagNow then ConsumerState.done else ConsumerState.waiting

/-- The consumer's state after `n` loop iterations, where `flag k` is the
value of `validationComplete` read in iteration `k`. -/
def consumerAfter (flag : Nat → Bool) : Nat → ConsumerState
  | 0 => ConsumerState.waiting
  | n + 1 => consumerStep (flag n) (consumerAfter flag n)

/-- The environment in which the producer never publishes. -/
def neverPublish : Nat → Bool := fun _ => false

/-- C5 (counterexample): the consumer's wait is not bounded and has no
`Timeout` outcome: when the producer never publishes, the waiting state is
a fixed point of the loop iteration — the loop never exits (in particular
it has not exited after 100 iterations), rather than terminating with
`Timeout` after a bound. -/
theorem consumer_wait_no_timeout :
    consumerStep false ConsumerState.waiting = ConsumerState.waiting ∧
    consumerAfter neverPublish 100 = ConsumerState.waiting := by
  constructor
  · rfl
  · decide

/-- C5 (amended): the consumer's wait is an unbounded poll on
`validationComplete` with no timeout path: if the producer never publishes,
the consumer is still waiting after every number of iterations (there is no
`Timeout` outcome and no fallback to `INITIALIZATION_FAILED`), and it exits
the wait in the iteration after the flag is seen set. -/
theorem consumer_wait_unbounded :
    (∀ n : Nat, consumerAfter neverPublish n = ConsumerState.waiting) ∧
    (∀ (flag : Nat → Bool) (n : Nat), flag n = true →
      consumerAfter flag (n + 1) = ConsumerState.done) := by
  constructor
  · intro n
    induction n with
    | zero => rfl
    | succ n ih => simp [consumerAfter, consumerStep, neverPublish, ih]
  · intro flag n h
    show consumerStep (flag n) (consumerAfter flag n) = ConsumerState.done
    rw [h]
    cases consumerAfter flag n <;> rfl

/-- Witness for C5 (amended) at concrete iteration counts. -/
theorem consumer_wait_unbounded_witness :
    consumerAfter neverPublish 3 = ConsumerState.waiting ∧
    (fun _ : Nat => true) 0 = true ∧
    consumerAfter (fun _ : Nat => true) 1 = ConsumerState.done :=
  ⟨consumer_wait_unbounded.1 3, rfl,
   consumer_wait_unbounded.2 (fun _ => true) 0 rfl⟩

/-! ## Validation orchestrator

`validateNVS` is called at main.cpp line 198 but its implementation (and
the `SchemaMigrator`/`IntegrityChecker` composition it performs) is in a
library source that is not available; the definitions below are therefore
modelled from the specification (§3, §4.3, §4.4, §4.5), as marked. -/

/-- Modelled from the spec: the persisted `NamespaceRecord` of §3 — the
fixed key set `VERSION`, `ZAPNUMBER`, `PASSWORD_HASH`, `CRC` of the `"EARS"`
namespace, each possibly absent.  The defining source is not available. -/
structure NVSRecord where
  version : Option Nat
  zapNumber : Option String
  passwordHash : Option String
  crc : Option Nat
deriving DecidableEq

/-- Modelled from the spec: the ZapNumber format check of §4.5/§6 —
non-empty fixed-length alphanumeric, "e.g., 2 letters + 4 digits" (the
exact rule is an open policy point in §9; this model fixes the example
format).  The defining source (`isValidZapNumber`) is not available. -/
def isValidZapNumber (s : String) : Bool :=
  s.length == 6 && (s.data.take 2).all Char.isAlpha &&
    (s.data.drop 2).all Char.isDigit

/-- Modelled from the spec: the canonical, order-fixed serialization of §3
and §4.3 — the concatenated byte values of `VERSION`, `ZAPNUMBER`,
`PASSWORD_HASH` in that order, excluding `CRC` itself. -/
def canonicalBytes (version : Nat) (zap pwd : String) : List Nat :=
  (toString version).data.map Char.toNat ++ zap.data.map Char.toNat ++
    pwd.data.map Char.toNat

/-- The recomputed checksum of a record: CRC32 over the canonical
serialization of its three tracked fields (absent fields serialize as the
fresh-record defaults), excluding the `CRC` field itself. -/
def recordCRC (r : NVSRecord) : Nat :=
  calculateCRC32
    (canonicalBytes (r.version.getD 0) (r.zapNumber.getD "")
      (r.passwordHash.getD ""))

/-- Modelled from the spec: one migration step of §4.4, "transforming or
adding keys as required by that version increment".  No version increment
of this schema requires a key transformation (the spec states none and
leaves the step contents as open policy in §9), so each step leaves the
record's keys unchanged; the `VERSION` and `CRC` rewrites are performed
once after the steps, as §4.4 prescribes. -/
def migrationStep (_v : Nat) (r : NVSRecord) : NVSRecord := r

/-- Modelled from the spec: apply the migration steps in ascending version
order from `storedVersion + 1` up to `expectedVersion` (§4.4). -/
def applyMigrations (storedVersion expectedVersion : Nat) (r : NVSRecord) :
    NVSRecord :=
  (List.range' (storedVersion + 1) (expectedVersion - storedVersion)).foldl
    (fun acc v => migrationStep v acc) r

/-- Modelled from the spec: the `validateNVS` orchestrator of §4.4/§4.5
(its implementation source is not available).  Treating an absent stored
version as 0: a stored version above the expected one is terminal
`INVALID_VERSION`; a zero stored version initializes `VERSION` (fresh
record, no error); a stale stored version applies the migration steps in
ascending order, rewrites `VERSION`, and recomputes/rewrites `CRC`.  Then
the checks run in the fixed precedence order of §4.5: integrity
(`CRC_FAILED`, evaluated after any migration rewrite; a record with no
stored `CRC` is a fresh record with nothing to verify), then
`MISSING_ZAPNUMBER`, then `MISSING_PASSWORD`, then `UPGRADED`/`VALID`.
All diagnostic booleans are populated regardless of which status
short-circuits. -/
def validateNVS (expectedVersion : Nat) (r : NVSRecord) :
    NVSValidationResult × NVSRecord :=
  let storedVersion := r.version.getD 0
  if expectedVersion < storedVersion then
    ({ defaultResult with
        status := NVSStatus.INVALID_VERSION
        currentVersion := storedVersion
        expectedVersion := expectedVersion }, r)
  else
    let wasUpgraded := decide (0 < storedVersion ∧ storedVersion < expectedVersion)
    let r1 :=
      if storedVersion = 0 then { r with version := some expectedVersion }
      else if storedVersion < expectedVersion then
        let m2 := { applyMigrations storedVersion expectedVersion r with
                      version := some expectedVersion }
        { m2 with crc := some (recordCRC m2) }
      else r
    let calcCRC := recordCRC r1
    let crcValid := match r1.crc with
      | none => true
      | some c => decide (c = calcCRC)
    let zapValid := match r1.zapNumber with
      | none => false
      | some z => isValidZapNumber z
    let pwdValid := match r1.passwordHash with
      | none => false
      | some _ => true
    let status :=
      if crcValid = false then NVSStatus.CRC_FAILED
      else if zapValid = false then NVSStatus.MISSING_ZAPNUMBER
      else if pwdValid = false then NVSStatus.MISSING_PASSWORD
      else if wasUpgraded then NVSStatus.UPGRADED
      else NVSStatus.VALID
    ({ status := status
       currentVersion := storedVersion
       expectedVersion := expectedVersion
       zapNumber := r1.zapNumber.getD ""
       zapNumberValid := zapValid
       passwordHashValid := pwdValid
       crcValid := crcValid
       calculatedCRC := calcCRC
       wasUpgraded := wasUpgraded }, r1)

lemma applyMigrations_keys (storedVersion expectedVersion : Nat)
    (r : NVSRecord) : applyMigrations storedVersion expectedVersion r = r := by
  unfold applyMigrations migrationStep
  induction (List.range' (storedVersion + 1) (expectedVersion - storedVersion)) with
  | nil => rfl
  | cons v rest ih => simp [List.foldl_cons, ih]

/-- C1: for a stored record whose version is valid (equal to the expected
version) but whose stored CRC differs from the recomputed checksum and
whose `ZAPNUMBER` is absent, the validation pass produces `CRC_FAILED` and
not `MISSING_ZAPNUMBER`: the integrity failure is terminal and takes
precedence over the missing-field checks. -/
theorem crc_failed_precedes_missing_zapnumber :
    ∀ (expectedVersion : Nat) (r : NVSRecord) (c : Nat),
      r.version = some expectedVersion →
      0 < expectedVersion →
      r.crc = some c →
      c ≠ recordCRC r →
      r.zapNumber = none →
      (validateNVS expectedVersion r).1.status = NVSStatus.CRC_FAILED ∧
      (validateNVS expectedVersion r).1.status ≠ NVSStatus.MISSING_ZAPNUMBER := by
  intro ev r c hv hev hcrc hne hzap
  have hstored : r.version.getD 0 = ev := by rw [hv]; rfl
  have h1 : ¬ ev < ev := lt_irrefl ev
  have h2 : ¬ ev = 0 := Nat.pos_iff_ne_zero.mp hev
  simp only [validateNVS, hstored, h1, if_false, if_neg h2, if_neg h1, hcrc]
  have : decide (c = recordCRC r) = false := decide_eq_false hne
  simp [this]

/-- Witness for C1: a concrete record with current version, corrupted CRC,
and missing ZapNumber. -/
theorem crc_failed_precedes_missing_zapnumber_witness :
    (NVSRecord.mk (some 2) none (some "AB") (some 0)).version = some 2 ∧
    (0 : Nat) < 2 ∧
    (NVSRecord.mk (some 2) none (some "AB") (some 0)).crc = some 0 ∧
    (0 : Nat) ≠ recordCRC (NVSRecord.mk (some 2) none (some "AB") (some 0)) ∧
    (NVSRecord.mk (some 2) none (some "AB") (some 0)).zapNumber = none ∧
    ((validateNVS 2 (NVSRecord.mk (some 2) none (some "AB") (some 0))).1.status =
        NVSStatus.CRC_FAILED ∧
      (validateNVS 2 (NVSRecord.mk (some 2) none (some "AB") (some 0))).1.status ≠
        NVSStatus.MISSING_ZAPNUMBER) :=
  ⟨rfl, by decide, rfl, by decide, rfl,
   crc_failed_precedes_missing_zapnumber 2 _ 0 rfl (by decide) rfl (by decide) rfl⟩

/-- The record produced by migrating a stale version-1 record to version 2:
the migration steps applied in ascending order, `VERSION` rewritten to 2,
and `CRC` rewritten to the checksum recomputed over the migrated fields. -/
def upgradedRecord (r : NVSRecord) : NVSRecord :=
  let m2 := { applyMigrations 1 2 r with version := some 2 }
  { m2 with crc := some (recordCRC m2) }

/-- C6: for a stored record with `storedVersion = 1` and
`expectedVersion = 2` whose other checks pass, the validation pass applies
the migration steps in ascending version order, rewrites `VERSION` to the
expected version, sets `wasUpgraded = true`, recomputes and rewrites `CRC`,
and produces `UPGRADED`; a subsequent read of `VERSION` on the rewritten
record returns 2 and its stored `CRC` matches the recomputed checksum. -/
theorem migration_upgrades :
    ∀ (r : NVSRecord) (z p : String),
      r.version = some 1 →
      r.zapNumber = some z →
      isValidZapNumber z = true →
      r.passwordHash = some p →
      (validateNVS 2 r).1.status = NVSStatus.UPGRADED ∧
      (validateNVS 2 r).1.wasUpgraded = true ∧
      (validateNVS 2 r).2 = upgradedRecord r ∧
      (validateNVS 2 r).2.version.getD 0 = 2 ∧
      (validateNVS 2 r).2.crc = some (recordCRC (validateNVS 2 r).2) := by
  intro r z p hv hz hzv hp
  have hstored : r.version.getD 0 = 1 := by rw [hv]; rfl
  have hkeys : applyMigrations 1 2 r = r := applyMigrations_keys 1 2 r
  simp only [validateNVS, upgradedRecord, hstored, hkeys]
  norm_num
  have hcrc :
      recordCRC { r with version := some 2, crc := some (recordCRC { r with version := some 2 }) } = recordCRC { r with version := some 2 } :=
    rfl
  simp [hcrc, hz, hzv, hp, recordCRC]

/-- Witness for C6: a concrete stale record at version 1 with valid keys. -/
theorem migration_upgrades_witness :
    (NVSRecord.mk (some 1) (some "AB1234") (some "CAFEBABE") none).version =
      some 1 ∧
    (NVSRecord.mk (some 1) (some "AB1234") (some "CAFEBABE") none).zapNumber =
      some "AB1234" ∧
    isValidZapNumber "AB1234" = true ∧
    (NVSRecord.mk (some 1) (some "AB1234") (some "CAFEBABE") none).passwordHash =
      some "CAFEBABE" ∧
    ((validateNVS 2 (NVSRecord.mk (some 1) (some "AB1234") (some "CAFEBABE")
        none)).1.status = NVSStatus.UPGRADED ∧
      (validateNVS 2 (NVSRecord.mk (some 1) (some "AB1234") (some "CAFEBABE")
        none)).1.wasUpgraded = true ∧
      (validateNVS 2 (NVSRecord.mk (some 1) (some "AB1234") (some "CAFEBABE")
        none)).2 =
        upgradedRecord (NVSRecord.mk (some 1) (some "AB1234") (some "CAFEBABE")
          none) ∧
      (validateNVS 2 (NVSRecord.mk (some 1) (some "AB1234") (some "CAFEBABE")
        none)).2.version.getD 0 = 2 ∧
      (validateNVS 2 (NVSRecord.mk (some 1) (some "AB1234") (some "CAFEBABE")
        none)).2.crc =
        some (recordCRC (validateNVS 2 (NVSRecord.mk (some 1) (some "AB1234")
          (some "CAFEBABE") none)).2)) :=
  ⟨rfl, rfl, by decide, rfl,
   migration_upgrades _ "AB1234" "CAFEBABE" rfl rfl (by decide) rfl⟩

end EARS
